import Mathlib

/-!
# Verification of the coil terminal game engine

Shallow embedding of the `coil_engine` crate: the cell-buffer renderer
(`src/coil_engine/src/renderer.rs`), the input queue
(`src/coil_engine/src/input.rs`), the configuration
(`src/coil_engine/src/config.rs`) and the fixed-timestep event loop
(`src/coil_engine/src/event_loop.rs`).

Conventions:
* `std::time::Duration` values are modelled as `Nat` (nanoseconds).
* Rust `Result<T, EngineError>` becomes `Except EngineError T`; a method that
  mutates `&mut self` and returns `Result<(), E>` becomes a function returning
  `Except E` of the updated value.
* Terminal I/O (crossterm `execute!`, raw mode, polling) is not observable in
  a pure model; where the code branches on its success the outcome is passed
  in as an explicit `Except String Unit` argument, mirroring the `map_err`
  that the source applies to it.
-/

namespace Coil

/-- `EngineError` from `errors.rs`. The enum in `errors.rs` declares `Input`,
`Io` and `EventLoop`; the revisions of `renderer.rs` and `config.rs` in the
tree additionally construct `Render` and `Config` variants, so the model
carries all five. Payloads are the formatted message strings. -/
inductive EngineError where
  | Input (msg : String)
  | Io (msg : String)
  | EventLoop (msg : String)
  | Render (msg : String)
  | Config (msg : String)
  deriving DecidableEq, Repr

/-- Fragment of `crossterm::style::Color` used by the engine. Only `Reset` is
constructed by the engine itself; the other constructors keep the type
non-trivial so that cell equality is genuinely structural. -/
inductive Color where
  | Reset
  | Black
  | White
  | Rgb (r g b : Nat)
  | AnsiValue (v : Nat)
  deriving DecidableEq, Repr

/-- `Cell` from `renderer.rs`: one character cell with foreground and
background colors. Equality is structural (derived), as in the source's
`#[derive(PartialEq, Eq)]`. -/
structure Cell where
  ch : Char
  fg : Color
  bg : Color
  deriving DecidableEq, Repr

/-- The blank cell used by `BasicRenderer::new` and `clear`. -/
def blankCell : Cell := { ch := ' ', fg := Color.Reset, bg := Color.Reset }

/-- `BasicRenderer` from `renderer.rs`: width, height and the two cell
buffers. `width`/`height` are `u16` in the source; they are modelled as `Nat`
with the one place where 16-bit arithmetic matters (the buffer-length
multiplication in `new`) made explicit. -/
structure BasicRenderer where
  width : Nat
  height : Nat
  back_buffer : List Cell
  front_buffer : List Cell
  deriving DecidableEq, Repr

/-- `BasicRenderer::new`. The source first runs
`execute!(stdout(), EnterAlternateScreen, EnableMouseCapture, cursor::Hide)`
and maps a failure through `EngineError::Input(e.to_string())`; the outcome of
that terminal call is the `setup` argument. On success it allocates
`vec![blank; (width * height) as usize]` — `width * height` is a `u16 * u16`
multiplication performed *before* the cast to `usize`, so the length is
reduced modulo `2 ^ 16` — and clones it into the front buffer. -/
def BasicRenderer.new (width height : Nat) (setup : Except String Unit) :
    Except EngineError BasicRenderer :=
  match setup with
  | .error e => .error (.Input e)
  | .ok _ =>
    let len := (width * height) % 65536
    let back_buffer := List.replicate len blankCell
    let front_buffer := back_buffer
    .ok { width := width, height := height,
          back_buffer := back_buffer, front_buffer := front_buffer }

/-- `BasicRenderer::index`: index of the cell at `(x, y)` in the back buffer,
or a `Render` bounds error. -/
def BasicRenderer.index (r : BasicRenderer) (x y : Nat) : Except EngineError Nat :=
  if x ≥ r.width ∨ y ≥ r.height then
    .error (.Render ("Coordinates out of bounds: (" ++ toString x ++ ", " ++
      toString y ++ ")"))
  else
    .ok (y * r.width + x)

/-- `BasicRenderer::coordinates`: inverse of `index`. -/
def BasicRenderer.coordinates (r : BasicRenderer) (index : Nat) :
    Except EngineError (Nat × Nat) :=
  if index ≥ r.back_buffer.length then
    .error (.Render ("Index out of bounds: " ++ toString index))
  else
    .ok (index % r.width, index / r.width)

/-- `Renderer::clear` for `BasicRenderer`: `self.back_buffer.fill(blank)`. -/
def BasicRenderer.clear (r : BasicRenderer) : Except EngineError BasicRenderer :=
  .ok { r with back_buffer := List.replicate r.back_buffer.length blankCell }

/-- `Renderer::draw_cell` for `BasicRenderer`:
`let index = self.index(x, y)?; self.back_buffer[index] = cell;`. -/
def BasicRenderer.draw_cell (r : BasicRenderer) (x y : Nat) (cell : Cell) :
    Except EngineError BasicRenderer :=
  match r.index x y with
  | .error e => .error e
  | .ok i => .ok { r with back_buffer := r.back_buffer.set i cell }

/-- Loop body of `Renderer::draw_str` for `BasicRenderer`, with `xi = x + i`
the column of the current character. For each character the source calls
`draw_cell` and matches on the result: `Ok(_)` does nothing further,
`Err(Render(e))` logs a warning, any other error returns. It then calls
`self.draw_cell(x + i as u16, y, Cell { ch, fg, bg })?` a *second* time, and
this duplicated call propagates the very bounds error the preceding match
just recovered from. -/
def BasicRenderer.draw_strGo (fg bg : Color) (y : Nat) :
    BasicRenderer → Nat → List Char → Except EngineError BasicRenderer
  | r, _, [] => .ok r
  | r, xi, ch :: rest =>
    match r.draw_cell xi y { ch := ch, fg := fg, bg := bg } with
    | .ok r1 =>
      match r1.draw_cell xi y { ch := ch, fg := fg, bg := bg } with
      | .ok r2 => BasicRenderer.draw_strGo fg bg y r2 (xi + 1) rest
      | .error e => .error e
    | .error (.Render _) =>
      -- the warning is logged, then the duplicated call below runs on the
      -- unchanged renderer and hits the same bounds error, which `?` returns
      match r.draw_cell xi y { ch := ch, fg := fg, bg := bg } with
      | .ok r2 => BasicRenderer.draw_strGo fg bg y r2 (xi + 1) rest
      | .error e => .error e
    | .error e => .error e

/-- `Renderer::draw_str` for `BasicRenderer`: iterates
`text.chars().enumerate()` drawing at `(x + i, y)`. -/
def BasicRenderer.draw_str (r : BasicRenderer) (x y : Nat) (text : List Char)
    (fg bg : Color) : Except EngineError BasicRenderer :=
  BasicRenderer.draw_strGo fg bg y r x text

/-- One `MoveTo(x, y); SetForegroundColor; SetBackgroundColor; Print(ch)`
escape-sequence group emitted by `flush` for a single changed cell. -/
structure EmitCmd where
  x : Nat
  y : Nat
  cell : Cell
  deriving DecidableEq, Repr

/-- Loop of `Renderer::flush`: walks the back and front buffers in step with
running index `i`, emitting a command and updating the front entry exactly
when the cells differ. `i % width` / `i / width` inline
`BasicRenderer.coordinates`, which cannot fail here because `i` ranges over
the back buffer's indices. The source indexes `self.front_buffer[i]` and
would panic if the front buffer were shorter; buffers always have equal
length (they are constructed together and `flush` preserves it), so the
mismatched-length branch is unreachable and returns the empty remainder. -/
def flushAux (width : Nat) : Nat → List Cell → List Cell → List EmitCmd × List Cell
  | _, [], _ => ([], [])
  | _, _ :: _, [] => ([], [])
  | i, b :: bs, f :: fs =>
    let t := flushAux width (i + 1) bs fs
    if b ≠ f then ({ x := i % width, y := i / width, cell := b } :: t.1, b :: t.2)
    else (t.1, f :: t.2)

/-- `Renderer::flush` for `BasicRenderer`: returns the emitted escape
commands in buffer order together with the renderer whose front buffer has
absorbed the changed cells. Terminal output success is assumed (an I/O
failure would surface as a `Render` error, outside the pure diff). -/
def BasicRenderer.flush (r : BasicRenderer) : List EmitCmd × BasicRenderer :=
  let t := flushAux r.width 0 r.back_buffer r.front_buffer
  (t.1, { r with front_buffer := t.2 })

/-- `InputHandler` from `input.rs`, parametric in the event type (crossterm's
`Event` is opaque to the engine). The queue is the `VecDeque<Event>` in
arrival order (front of the list = oldest). -/
structure InputHandler (E : Type) where
  queue : List E
  deriving DecidableEq, Repr

/-- `InputHandler::new`: `enable_raw_mode()` mapped through
`EngineError::Input`, then an empty queue. -/
def InputHandler.new {E : Type} (rawMode : Except String Unit) :
    Except EngineError (InputHandler E) :=
  match rawMode with
  | .error e => .error (.Input e)
  | .ok _ => .ok { queue := [] }

/-- `InputHandler::drain`: `self.queue.drain(..).collect()` — returns every
queued event in arrival order and leaves the queue empty. -/
def InputHandler.drain {E : Type} (h : InputHandler E) : List E × InputHandler E :=
  (h.queue, { queue := [] })

/-- `InputStrategy` from `input.rs`. The custom timeout is a duration in
nanoseconds. -/
inductive InputStrategy where
  | NonBlocking
  | FrameBudgeted
  | Timeout (d : Nat)
  deriving DecidableEq, Repr

/-- `InputStrategy::timeout` (durations in nanoseconds): 1 ms when
non-blocking, 16 ms when frame-budgeted, else the custom duration. -/
def InputStrategy.timeout : InputStrategy → Nat
  | .NonBlocking => 1000000
  | .FrameBudgeted => 16000000
  | .Timeout d => d

/-- `GameConfig` from `config.rs`. `max_frame_time` is a duration in
nanoseconds. `event_loop.rs` reads `config.screen_size` (the `config.rs`
revision in the tree predates the field; spec §3 lists `screen_size` in the
Game Configuration), modelled as a `(width, height)` pair. -/
structure GameConfig where
  target_fps : Nat
  input_strategy : InputStrategy
  max_frame_time : Nat
  debug_mode : Bool
  vsync : Bool
  screen_size : Nat × Nat
  deriving DecidableEq, Repr

/-- `GameConfig::validate`: rejects `target_fps == 0`, then a zero
`max_frame_time`, with `Config` errors; otherwise `Ok(())`. -/
def GameConfig.validate (c : GameConfig) : Except EngineError Unit :=
  if c.target_fps = 0 then
    .error (.Config "Target FPS must be greater than zero")
  else if c.max_frame_time = 0 then
    .error (.Config "Max frame time must be greater than zero")
  else
    .ok ()

/-- The spiral-of-death clamp in `EventLoop::run`:
`if elapsed > max_frame_time { elapsed = max_frame_time }`. -/
def clampElapsed (e mft : Nat) : Nat :=
  if mft < e then mft else e

/-- `lag_time += elapsed` after clamping: the lag entering the update drain
of an iteration that started with carried lag `L` and measured elapsed `e`. -/
def accumLag (L e mft : Nat) : Nat :=
  L + clampElapsed e mft

/-- The update drain of `EventLoop::run`:
`while lag_time >= frame_duration { state.update(frame_duration); lag_time -= frame_duration }`.
Returns the list of deltas passed to `state.update` (in call order) and the
final lag. The source loop does not terminate when `frame_duration` is zero;
the `0 < d` conjunct in the guard makes the model total and agrees with the
source whenever the source loop terminates. -/
def updateLoop (d : Nat) (lag : Nat) : List Nat × Nat :=
  if _h : 0 < d ∧ d ≤ lag then
    let t := updateLoop d (lag - d)
    (d :: t.1, t.2)
  else
    ([], lag)
  termination_by lag
  decreasing_by omega

/-- The whole timestep phase of one `EventLoop::run` iteration: clamp the
elapsed time, accumulate it into the lag, drain the lag in whole
`frame_duration` steps. -/
def updatePhase (L e mft d : Nat) : List Nat × Nat :=
  updateLoop d (accumLag L e mft)

/-- The event-dispatch loop of `EventLoop::run`:
`for event in self.input_handler.drain() { if state.on_event(event) { return Ok(()); } }`.
`onEvent ev s` returns the exit flag and the updated state. The result is the
list of events actually dispatched (in order), the final state, and whether
the loop returned (`true` = `run` returns `Ok(())`). -/
def dispatchEvents {E S : Type} (onEvent : E → S → Bool × S) :
    List E → S → List E × S × Bool
  | [], s => ([], s, false)
  | ev :: rest, s =>
    let r := onEvent ev s
    if r.1 then ([ev], r.2, true)
    else
      let t := dispatchEvents onEvent rest r.2
      (ev :: t.1, t.2.1, t.2.2)

/-- Outcome of one iteration of `EventLoop::run`: either the loop returned
`Ok(())` because an event handler requested exit, or it continues with the
post-update state and the new carried lag. -/
inductive IterOutcome (S : Type) where
  | exited (s : S)
  | continued (s : S) (lag : Nat)
  deriving DecidableEq, Repr

/-- One iteration of `EventLoop::run` after the poll: dispatch the drained
events (returning `Ok(())` on an exit request), otherwise clamp/accumulate
the elapsed time and run the fixed-timestep updates. The render phase
(`clear`; `state.render`; `flush`) acts only on the renderer and is modelled
by `BasicRenderer.clear` / `BasicRenderer.flush` above. -/
def runIteration {E S : Type} (onEvent : E → S → Bool × S) (update : Nat → S → S)
    (events : List E) (s : S) (L e mft d : Nat) : IterOutcome S :=
  let t := dispatchEvents onEvent events s
  if t.2.2 then .exited t.2.1
  else
    let p := updatePhase L e mft d
    .continued (p.1.foldl (fun st dt => update dt st) t.2.1) p.2

/-- `EventLoop` from `event_loop.rs`: the input handler, the renderer and the
borrowed config. -/
structure EventLoop (E : Type) where
  input_handler : InputHandler E
  renderer : BasicRenderer
  config : GameConfig

/-- `EventLoop::new`: `config.validate()?`, then the struct literal whose
fields run `InputHandler::new()?` (raw-mode enable) and then
`BasicRenderer::new(width, height)?` (alternate screen), in that order.
The outcomes of the two terminal side effects are the `rawMode` and
`termSetup` arguments; validation happens before either is consulted. -/
def EventLoop.new {E : Type} (config : GameConfig)
    (rawMode termSetup : Except String Unit) : Except EngineError (EventLoop E) :=
  match config.validate with
  | .error er => .error er
  | .ok _ =>
    match InputHandler.new (E := E) rawMode with
    | .error er => .error er
    | .ok ih =>
      match BasicRenderer.new config.screen_size.1 config.screen_size.2 termSetup with
      | .error er => .error er
      | .ok r => .ok { input_handler := ih, renderer := r, config := config }

/-! ## Helper lemmas -/

theorem updateLoop_spec (d : Nat) (hd : 0 < d) (lag : Nat) :
    updateLoop d lag = (List.replicate (lag / d) d, lag % d) := by
  induction lag using Nat.strong_induction_on with
  | _ lag ih =>
    rw [updateLoop]
    by_cases hle : d ≤ lag
    · rw [dif_pos ⟨hd, hle⟩, ih (lag - d) (by omega)]
      have hsub : lag - d + d = lag := Nat.sub_add_cancel hle
      have hdiv : lag / d = (lag - d) / d + 1 := by
        conv_lhs => rw [← hsub]
        rw [Nat.add_div_right _ hd]
      have hmod : lag % d = (lag - d) % d := by
        conv_lhs => rw [← hsub]
        rw [Nat.add_mod_right]
      rw [hdiv, hmod, List.replicate_succ]
    · rw [dif_neg (by omega)]
      have hlt : lag < d := by omega
      rw [Nat.div_eq_of_lt hlt, Nat.mod_eq_of_lt hlt, List.replicate_zero]

/-- C2 (amended): when a drained event's `on_event` returns true, dispatch
stops at that event — the events dispatched are exactly those up to and
including the first exit-signaling one, in arrival order, the events after it
in the batch are never dispatched, and the loop reports exit (returns
`Ok(())`) immediately. -/
theorem c2_exit_stops_dispatch {E S : Type} (onEvent : E → S → Bool × S)
    (pre : List E) :
    ∀ (s s1 s2 : S) (ev : E) (post : List E),
      dispatchEvents onEvent pre s = (pre, s1, false) →
      onEvent ev s1 = (true, s2) →
      dispatchEvents onEvent (pre ++ ev :: post) s = (pre ++ [ev], s2, true) := by
  induction pre with
  | nil =>
    intro s s1 s2 ev post hpre hev
    simp only [dispatchEvents, Prod.mk.injEq, true_and] at hpre
    obtain ⟨hs, -⟩ := hpre
    subst hs
    simp [dispatchEvents, hev]
  | cons a as ih =>
    intro s s1 s2 ev post hpre hev
    rcases hae : onEvent a s with ⟨exit, s'⟩
    cases exit with
    | true =>
      simp [dispatchEvents, hae] at hpre
    | false =>
      rcases hda : dispatchEvents onEvent as s' with ⟨ds, sF, bF⟩
      simp only [dispatchEvents, hae, if_false, Bool.false_eq_true, hda,
        Prod.mk.injEq, List.cons.injEq, true_and] at hpre
      obtain ⟨hds, hsf, hbf⟩ := hpre
      subst hds; subst hsf; subst hbf
      have hres := ih s' sF s2 ev post hda hev
      simp only [List.cons_append, dispatchEvents, hae, if_false,
        Bool.false_eq_true, hres]
      simp [hres]

theorem flushAux_self (w : Nat) : ∀ (l : List Cell) (i : Nat), flushAux w i l l = ([], l) := by
  intro l
  induction l with
  | nil => intro i; rfl
  | cons b bs ih =>
    intro i
    simp only [flushAux, ih (i + 1), ne_eq, not_true_eq_false, if_false, ite_false]

theorem flushAux_snd (w : Nat) :
    ∀ (bs fs : List Cell) (i : Nat), bs.length = fs.length →
      (flushAux w i bs fs).2 = bs := by
  intro bs
  induction bs with
  | nil => intro fs i _; rfl
  | cons b bs ih =>
    intro fs i hlen
    cases fs with
    | nil => simp at hlen
    | cons f fs =>
      simp only [List.length_cons, Nat.add_right_cancel_iff] at hlen
      by_cases hbf : b = f
      · subst hbf
        simp only [flushAux, ne_eq, not_true_eq_false, if_false, ite_false,
          ih fs (i + 1) hlen]
      · simp only [flushAux, ne_eq, hbf, not_false_eq_true, if_true, ite_true,
          ih fs (i + 1) hlen]

theorem flushAux_fst (w : Nat) :
    ∀ (bs fs : List Cell) (i : Nat), bs.length = fs.length →
      (flushAux w i bs fs).1 =
        (List.enumFrom i (bs.zip fs)).filterMap fun p =>
          if p.2.1 ≠ p.2.2 then
            some { x := p.1 % w, y := p.1 / w, cell := p.2.1 }
          else none := by
  intro bs
  induction bs with
  | nil => intro fs i _; rfl
  | cons b bs ih =>
    intro fs i hlen
    cases fs with
    | nil => simp at hlen
    | cons f fs =>
      simp only [List.length_cons, Nat.add_right_cancel_iff] at hlen
      by_cases hbf : b = f
      · subst hbf
        simp only [flushAux, ne_eq, not_true_eq_false, if_false, ite_false,
          ih fs (i + 1) hlen, List.zip_cons_cons, List.enumFrom,
          List.filterMap_cons]
        rfl
      · simp only [flushAux, ne_eq, hbf, not_false_eq_true, if_true, ite_true,
          ih fs (i + 1) hlen, List.zip_cons_cons, List.enumFrom,
          List.filterMap_cons]
        rfl

/-- The accumulated lag entering the drain equals `min e mft` plus the carried
lag: the clamp `if mft < e then mft else e` is exactly `min e mft`. -/
theorem accumLag_eq_min (L e mft : Nat) : accumLag L e mft = min e mft + L := by
  unfold accumLag clampElapsed
  rcases le_or_lt e mft with h | h
  · rw [if_neg (not_lt.mpr h), min_eq_left h, Nat.add_comm]
  · rw [if_pos h, min_eq_right h.le, Nat.add_comm]

/-! ## Claims -/

/-- C1: in each iteration of `EventLoop::run` with carried lag `L`, measured
elapsed time `e`, cap `mft` and frame duration `d > 0`, the number of
`state.update` calls is `⌊(min e mft + L) / d⌋`, every call receives exactly
`d` as its delta, and the carried-over lag is `(min e mft + L) % d`, which is
strictly below `d`; when the accumulated lag is an exact multiple of `d` the
remaining lag is zero. -/
theorem c1_fixed_timestep (L e mft d : Nat) (hd : 0 < d) :
    (updatePhase L e mft d).1.length = (min e mft + L) / d
    ∧ (∀ dt ∈ (updatePhase L e mft d).1, dt = d)
    ∧ (updatePhase L e mft d).2 = (min e mft + L) % d
    ∧ (updatePhase L e mft d).2 < d
    ∧ ((min e mft + L) % d = 0 → (updatePhase L e mft d).2 = 0) := by
  unfold updatePhase
  rw [accumLag_eq_min, updateLoop_spec d hd]
  exact ⟨by simp, fun dt hdt => List.eq_of_mem_replicate hdt, rfl,
    Nat.mod_lt _ hd, fun h => h⟩

/-- Witness for C1 at `L = 5`, `e = 30`, `mft = 20`, `d = 10`: two updates of
delta `10` fire and the carried lag is `5`. -/
theorem c1_fixed_timestep_witness :
    0 < 10
    ∧ ((updatePhase 5 30 20 10).1.length = (min 30 20 + 5) / 10
      ∧ (∀ dt ∈ (updatePhase 5 30 20 10).1, dt = 10)
      ∧ (updatePhase 5 30 20 10).2 = (min 30 20 + 5) % 10
      ∧ (updatePhase 5 30 20 10).2 < 10
      ∧ ((min 30 20 + 5) % 10 = 0 → (updatePhase 5 30 20 10).2 = 0)) :=
  ⟨by decide, c1_fixed_timestep 5 30 20 10 (by decide)⟩

/-- C7: the spiral-of-death clamp triggers only on strict inequality — if
`mft < e` the value accumulated into the lag is `mft`, and if `e ≤ mft`
(including `e = mft` exactly) it is `e`, unclamped. -/
theorem c7_clamp_strict (e mft L : Nat) :
    (mft < e → clampElapsed e mft = mft ∧ accumLag L e mft = L + mft)
    ∧ (e ≤ mft → clampElapsed e mft = e ∧ accumLag L e mft = L + e) := by
  constructor
  · intro h
    simp [accumLag, clampElapsed, h]
  · intro h
    simp [accumLag, clampElapsed, Nat.not_lt.mpr h]

/-- Witness for C7 at `e = 30 > mft = 20` (clamped) and at the boundary
`e = mft = 20` (not clamped). -/
theorem c7_clamp_strict_witness :
    (clampElapsed 30 20 = 20 ∧ accumLag 7 30 20 = 7 + 20)
    ∧ (clampElapsed 20 20 = 20 ∧ accumLag 7 20 20 = 7 + 20) :=
  ⟨(c7_clamp_strict 30 20 7).1 (by decide), (c7_clamp_strict 20 20 7).2 (by decide)⟩

/-- C6: `draw_cell` at a coordinate with `x ≥ width` or `y ≥ height` returns
a `Render` bounds error (and hence yields no updated renderer: the buffers
are untouched); at an in-bounds coordinate it writes the cell into the back
buffer at row-major index `y * width + x` — the front buffer unchanged — and
returns `Ok`. -/
theorem c6_draw_cell_bounds (r : BasicRenderer) (x y : Nat) (cell : Cell) :
    (x ≥ r.width ∨ y ≥ r.height →
      BasicRenderer.draw_cell r x y cell =
        .error (.Render ("Coordinates out of bounds: (" ++ toString x ++ ", " ++
          toString y ++ ")")))
    ∧ (x < r.width → y < r.height →
      BasicRenderer.draw_cell r x y cell =
        .ok { r with back_buffer := r.back_buffer.set (y * r.width + x) cell }) := by
  constructor
  · intro h
    simp [BasicRenderer.draw_cell, BasicRenderer.index, h]
  · intro hx hy
    have h : ¬(x ≥ r.width ∨ y ≥ r.height) := by omega
    simp [BasicRenderer.draw_cell, BasicRenderer.index, h]

/-- A 2×2 renderer with blank buffers, as built by
`BasicRenderer::new(2, 2)` after successful terminal setup. -/
def r22 : BasicRenderer :=
  { width := 2, height := 2,
    back_buffer := List.replicate 4 blankCell,
    front_buffer := List.replicate 4 blankCell }

/-- Witness for C6 on the 2×2 renderer: `(2, 0)` is rejected with a bounds
error, `(1, 1)` writes at index `1 * 2 + 1 = 3`. -/
theorem c6_draw_cell_bounds_witness :
    BasicRenderer.draw_cell r22 2 0 blankCell =
      .error (.Render ("Coordinates out of bounds: (" ++ toString 2 ++ ", " ++
        toString 0 ++ ")"))
    ∧ BasicRenderer.draw_cell r22 1 1 blankCell =
      .ok { r22 with back_buffer := r22.back_buffer.set (1 * r22.width + 1) blankCell } :=
  ⟨(c6_draw_cell_bounds r22 2 0 blankCell).1 (Or.inl (by decide)),
   (c6_draw_cell_bounds r22 1 1 blankCell).2 (by decide) (by decide)⟩

/-- C4: the claim says an out-of-bounds character is skipped with a logged
warning and `draw_str` returns `Ok`. The source's `match` on the first
`draw_cell` result does log and recover from the `Render` bounds error, but
the duplicated `self.draw_cell(x + i, y, ...)?` immediately after it re-runs
the failing draw and propagates that same bounds error, so drawing `"ab"` at
`(1, 0)` on a 2×2 screen aborts with the bounds error for `(2, 0)` instead of
returning `Ok` with `'b'` skipped. -/
theorem c4_draw_str_aborts :
    BasicRenderer.draw_str r22 1 0 ['a', 'b'] Color.Reset Color.Reset =
      .error (.Render "Coordinates out of bounds: (2, 0)") := by rfl

/-- C10: `BasicRenderer::new` computes the buffer length with the 16-bit
multiplication `width * height` before widening, i.e. modulo `2 ^ 16`; both
buffers are that many blank cells and equal to each other. When the product
fits in 16 bits the length is exactly `width * height`; when it exceeds
`65535` the computed length differs from `width * height`, so the buffers do
not cover the requested screen area. -/
theorem c10_buffer_len (w h : Nat) :
    BasicRenderer.new w h (.ok ()) =
      .ok { width := w, height := h,
            back_buffer := List.replicate ((w * h) % 65536) blankCell,
            front_buffer := List.replicate ((w * h) % 65536) blankCell }
    ∧ (w * h ≤ 65535 → (w * h) % 65536 = w * h)
    ∧ (65535 < w * h → (w * h) % 65536 ≠ w * h) := by
  refine ⟨rfl, fun hle => Nat.mod_eq_of_lt (by omega), fun hgt => ?_⟩
  have hm : (w * h) % 65536 < 65536 := Nat.mod_lt _ (by omega)
  omega

/-- Witness for C10 at `80 × 24` (fits: length is `1920`) and `256 × 256`
(wraps: length is `0`, not `65536`). -/
theorem c10_buffer_len_witness :
    (80 * 24 ≤ 65535 ∧ (80 * 24) % 65536 = 80 * 24)
    ∧ (65535 < 256 * 256 ∧ (256 * 256) % 65536 ≠ 256 * 256) :=
  ⟨⟨by decide, (c10_buffer_len 80 24).2.1 (by decide)⟩,
   ⟨by decide, (c10_buffer_len 256 256).2.2 (by decide)⟩⟩

/-- Event handler over `Nat` events used in concrete loop runs: requests exit
exactly on event `1`, with trivial state. -/
def exitOnOne : Nat → Unit → Bool × Unit := fun ev s => (ev == 1, s)

/-- C2 is false on the code: with batch `[0, 1, 2]` where event `1` signals
exit, the dispatch loop reports exit but only `[0, 1]` were dispatched — the
event after the exit-signaling one is dropped, not "still dispatched". -/
theorem c2_counterexample :
    (dispatchEvents exitOnOne [0, 1, 2] ()).2.2 = true
    ∧ (dispatchEvents exitOnOne [0, 1, 2] ()).1 = [0, 1]
    ∧ ([0, 1] : List Nat) ≠ [0, 1, 2] := by decide

/-- Witness for the amended C2 with `pre = [0]`, exit event `1`, trailing
batch `[2]`: exactly `[0, 1]` is dispatched and the loop exits. -/
theorem c2_exit_stops_dispatch_witness :
    dispatchEvents exitOnOne ([0] ++ 1 :: [2]) () = ([0] ++ [1], (), true) :=
  c2_exit_stops_dispatch exitOnOne [0] () () () 1 [2] (by decide) (by decide)

/-- C3: events `[A, B, C]` queued in one poll cycle are dispatched in arrival
order; when `A` does not signal exit and `B` does, the dispatched sequence is
exactly `[A, B]` (so `A` preceded `B` and `C` is never dispatched), the
iteration exits immediately after `B`'s invocation (`run` returns `Ok`), and
`drain` removes and returns every queued event in arrival order leaving the
queue empty. -/
theorem c3_event_order {E S : Type} (onEvent : E → S → Bool × S)
    (update : Nat → S → S) (A B C : E) (s s1 s2 : S) (q : List E)
    (L e mft d : Nat)
    (hA : onEvent A s = (false, s1)) (hB : onEvent B s1 = (true, s2)) :
    dispatchEvents onEvent [A, B, C] s = ([A, B], s2, true)
    ∧ runIteration onEvent update [A, B, C] s L e mft d = IterOutcome.exited s2
    ∧ InputHandler.drain { queue := q } = (q, { queue := [] }) := by
  have hd : dispatchEvents onEvent [A, B, C] s = ([A, B], s2, true) := by
    simp [dispatchEvents, hA, hB]
  exact ⟨hd, by simp [runIteration, hd], rfl⟩

/-- Witness for C3 with events `0, 1, 2` where `1` signals exit, and a queue
`[7, 8]` for `drain`. -/
theorem c3_event_order_witness :
    dispatchEvents exitOnOne [0, 1, 2] () = ([0, 1], (), true)
    ∧ runIteration exitOnOne (fun _ s => s) [0, 1, 2] () 5 30 20 10 =
        IterOutcome.exited ()
    ∧ InputHandler.drain { queue := [7, 8] } = ([7, 8], { queue := ([] : List Nat) }) :=
  c3_event_order exitOnOne (fun _ s => s) 0 1 2 () () () [7, 8] 5 30 20 10
    (by decide) (by decide)

/-- C5: `flush` emits one cursor-move-and-draw command exactly for each index
whose back cell differs structurally from the front cell (in buffer order,
with the row-major coordinates and the back cell), copies the back buffer
into the front buffer, leaves the back buffer alone, and emits nothing for
unchanged cells; hence a second `flush` with no intervening draw emits no
output at all. -/
theorem c5_flush_diff (r : BasicRenderer)
    (hlen : r.back_buffer.length = r.front_buffer.length) :
    (r.flush).1 =
      (List.enumFrom 0 (r.back_buffer.zip r.front_buffer)).filterMap (fun p =>
        if p.2.1 ≠ p.2.2 then
          some { x := p.1 % r.width, y := p.1 / r.width, cell := p.2.1 }
        else none)
    ∧ (r.flush).2.front_buffer = r.back_buffer
    ∧ (r.flush).2.back_buffer = r.back_buffer
    ∧ ((r.flush).2.flush).1 = [] := by
  have hfront : (r.flush).2.front_buffer = r.back_buffer := by
    simpa [BasicRenderer.flush] using
      flushAux_snd r.width r.back_buffer r.front_buffer 0 hlen
  have haux : ∀ s : BasicRenderer, s.front_buffer = s.back_buffer →
      (s.flush).1 = [] := by
    intro s hs
    simp [BasicRenderer.flush, hs, flushAux_self]
  refine ⟨?_, hfront, rfl, haux _ hfront⟩
  simpa [BasicRenderer.flush] using
    flushAux_fst r.width r.back_buffer r.front_buffer 0 hlen

/-- A 1×1 renderer whose back buffer holds `'a'` over a blank front buffer:
one changed cell. -/
def rAB : BasicRenderer :=
  { width := 1, height := 1,
    back_buffer := [{ ch := 'a', fg := Color.Reset, bg := Color.Reset }],
    front_buffer := [blankCell] }

/-- Witness for C5 on `rAB`: the single changed cell is emitted, the front
buffer absorbs it, and a second `flush` emits nothing. -/
theorem c5_flush_diff_witness :
    (rAB.flush).1 =
      (List.enumFrom 0 (rAB.back_buffer.zip rAB.front_buffer)).filterMap (fun p =>
        if p.2.1 ≠ p.2.2 then
          some { x := p.1 % rAB.width, y := p.1 / rAB.width, cell := p.2.1 }
        else none)
    ∧ (rAB.flush).2.front_buffer = rAB.back_buffer
    ∧ (rAB.flush).2.back_buffer = rAB.back_buffer
    ∧ ((rAB.flush).2.flush).1 = [] :=
  c5_flush_diff rAB (by decide)

/-- C8: `GameConfig::validate` returns a `Config` error exactly when
`target_fps = 0` or `max_frame_time = 0`, and `EventLoop::new` runs the
validation before the input handler (raw mode) or the renderer (alternate
screen) is constructed: for an invalid configuration the constructor returns
the configuration error whatever the outcomes of those two terminal side
effects would have been, so no loop resource is consulted or allocated. -/
theorem c8_validate_before_alloc {E : Type} (c : GameConfig)
    (raw1 term1 raw2 term2 : Except String Unit) :
    ((c.target_fps = 0 ∨ c.max_frame_time = 0) ↔
      ∃ msg, c.validate = .error (.Config msg))
    ∧ ((c.target_fps = 0 ∨ c.max_frame_time = 0) →
      (∃ msg, EventLoop.new (E := E) c raw1 term1 = .error (.Config msg))
      ∧ EventLoop.new (E := E) c raw1 term1 = EventLoop.new (E := E) c raw2 term2) := by
  by_cases h1 : c.target_fps = 0
  · have hv : c.validate = .error (.Config "Target FPS must be greater than zero") := by
      simp [GameConfig.validate, h1]
    have hnew1 : EventLoop.new (E := E) c raw1 term1 =
        .error (.Config "Target FPS must be greater than zero") := by
      simp [EventLoop.new, hv]
    have hnew2 : EventLoop.new (E := E) c raw2 term2 =
        .error (.Config "Target FPS must be greater than zero") := by
      simp [EventLoop.new, hv]
    exact ⟨⟨fun _ => ⟨_, hv⟩, fun _ => Or.inl h1⟩,
      fun _ => ⟨⟨_, hnew1⟩, hnew1.trans hnew2.symm⟩⟩
  · by_cases h2 : c.max_frame_time = 0
    · have hv : c.validate = .error (.Config "Max frame time must be greater than zero") := by
        simp [GameConfig.validate, h1, h2]
      have hnew1 : EventLoop.new (E := E) c raw1 term1 =
          .error (.Config "Max frame time must be greater than zero") := by
        simp [EventLoop.new, hv]
      have hnew2 : EventLoop.new (E := E) c raw2 term2 =
          .error (.Config "Max frame time must be greater than zero") := by
        simp [EventLoop.new, hv]
      exact ⟨⟨fun _ => ⟨_, hv⟩, fun _ => Or.inr h2⟩,
        fun _ => ⟨⟨_, hnew1⟩, hnew1.trans hnew2.symm⟩⟩
    · have hv : c.validate = .ok () := by
        simp [GameConfig.validate, h1, h2]
      refine ⟨⟨fun h => ?_, fun h => ?_⟩, fun h => ?_⟩
      · rcases h with h | h
        · exact absurd h h1
        · exact absurd h h2
      · rcases h with ⟨msg, hmsg⟩
        rw [hv] at hmsg
        exact absurd hmsg (by simp)
      · rcases h with h | h
        · exact absurd h h1
        · exact absurd h h2

/-- The default configuration of `GameConfig::new` with `target_fps` forced
to `0` (durations in nanoseconds; `max_frame_time` is 50 ms). -/
def zeroFpsConfig : GameConfig :=
  { target_fps := 0, input_strategy := .NonBlocking, max_frame_time := 50000000,
    debug_mode := false, vsync := true, screen_size := (80, 24) }

/-- Witness for C8 on the zero-fps configuration: validation yields a config
error, and `EventLoop::new` yields the same config error whether the terminal
side effects would have succeeded or failed. -/
theorem c8_validate_before_alloc_witness :
    (∃ msg, zeroFpsConfig.validate = .error (.Config msg))
    ∧ (∃ msg, EventLoop.new (E := Nat) zeroFpsConfig (.ok ()) (.ok ()) =
        .error (.Config msg))
    ∧ EventLoop.new (E := Nat) zeroFpsConfig (.ok ()) (.ok ()) =
        EventLoop.new (E := Nat) zeroFpsConfig (.error "no tty") (.error "boom") :=
  ⟨(c8_validate_before_alloc (E := Nat) zeroFpsConfig (.ok ()) (.ok ())
      (.error "no tty") (.error "boom")).1.mp (Or.inl rfl),
   ((c8_validate_before_alloc (E := Nat) zeroFpsConfig (.ok ()) (.ok ())
      (.error "no tty") (.error "boom")).2 (Or.inl rfl)).1,
   ((c8_validate_before_alloc (E := Nat) zeroFpsConfig (.ok ()) (.ok ())
      (.error "no tty") (.error "boom")).2 (Or.inl rfl)).2⟩

/-- `true` exactly on the render-category error variant. -/
def EngineError.isRenderErr : EngineError → Bool
  | .Render _ => true
  | _ => false

/-- C9 is false on the code: when terminal setup fails, `BasicRenderer::new`
maps the failure through `EngineError::Input(e.to_string())` — the
input-error category, not the render-error category the claim (and spec §4.3)
assign to it. The loop-creation test in `event_loop.rs` likewise expects
`EngineError::Input` when no terminal is available. -/
theorem c9_counterexample :
    BasicRenderer.new 80 24 (.error "boom") = .error (.Input "boom")
    ∧ EngineError.isRenderErr (.Input "boom") = false :=
  ⟨rfl, rfl⟩

/-- C9 (amended): for every renderer construction in which terminal setup
fails, `BasicRenderer::new` returns an error of the *input*-error category
carrying the formatted cause — not a render-category error. -/
theorem c9_setup_error_is_input (w h : Nat) (msg : String) :
    BasicRenderer.new w h (.error msg) = .error (.Input msg)
    ∧ EngineError.isRenderErr (.Input msg) = false :=
  ⟨rfl, rfl⟩

end Coil
